import Mathlib

/-
Verification development for the real-time game session engine of the
transcendence backend (GameService together with its database layer and
the game websocket handler).  The TypeScript source is embedded shallowly:
JavaScript numbers become rationals, in-place object mutation becomes
functional record update, awaited persistence calls become explicit state
threading, and every use of Math.random or Date.now becomes an explicit
parameter.  Fallible operations return Except paired with the state they
leave behind (mutations performed before a thrown error survive, exactly
as they do on the mutable in-memory objects of the source).
-/

namespace Pong

/-- Side of the table a participant occupies (field side of GamePlayer). -/
inductive Side where
  | left
  | right
deriving Repr, DecidableEq

/-- Status of a game (field status of GameState in the source,
stored there as one of the strings waiting, active, paused, finished). -/
inductive GameStatus where
  | waiting
  | active
  | paused
  | finished
deriving Repr, DecidableEq

/-- Difficulty tier of the synthetic opponent. -/
inductive Difficulty where
  | easy
  | medium
  | hard
  | expert
deriving Repr, DecidableEq

/-- AIOpponent interface: per-difficulty configuration. -/
structure AIOpponent where
  difficulty : Difficulty
  speed : ℚ
  accuracy : ℚ
  reactionTime : ℚ
deriving Repr, DecidableEq

/-- Ball interface of the source. -/
structure Ball where
  x : ℚ
  y : ℚ
  velocityX : ℚ
  velocityY : ℚ
  speed : ℚ
deriving Repr, DecidableEq

/-- GamePlayer interface of the source. -/
structure GamePlayer where
  userId : String
  username : String
  paddleY : ℚ
  score : ℤ
  isAi : Bool
  side : Side
deriving Repr, DecidableEq

/-- GameState interface of the source (timestamps kept as naturals). -/
structure GameState where
  gameId : String
  players : List GamePlayer
  ball : Ball
  status : GameStatus
  isPrivate : Bool
  maxPlayers : ℕ
  roomCode : Option String
  isAiGame : Bool
  difficulty : Option String
  lastUpdate : ℕ
  winningScore : ℤ
  gameStartTime : Option ℕ
deriving Repr, DecidableEq

/-- Row of the games table (status TEXT DEFAULT waiting). -/
structure DBGameRow where
  id : String
  created_by : String
  room_code : Option String
  is_private : Bool
  max_players : ℕ
  is_ai_game : Bool
  difficulty : Option String
  status : GameStatus
deriving Repr, DecidableEq

/-- Row of the game_players table (score INTEGER DEFAULT 0). -/
structure DBPlayerRow where
  game_id : String
  user_id : String
  is_ai : Bool
  score : ℤ
deriving Repr, DecidableEq

/-- Row of the game_moves table. -/
structure DBMoveRow where
  game_id : String
  user_id : String
  paddle_y : ℚ
  timestamp : ℕ
deriving Repr, DecidableEq

/-- The relational store used by the service: games, game_players and
game_moves tables, plus the users table restricted to the (id, username)
columns consulted by the join in getGamePlayers. -/
structure DB where
  games : List DBGameRow
  game_players : List DBPlayerRow
  game_moves : List DBMoveRow
  users : List (String × String)
deriving Repr, DecidableEq

/-- A websocket connection handle held in a per-game connection set;
sendOk records whether connection.send succeeds or throws. -/
structure Chan where
  cid : ℕ
  sendOk : Bool
deriving Repr, DecidableEq

/-- Association-list update with JavaScript Map.set semantics: replace the
binding when the key is present, append it otherwise. -/
def mapSet (k : String) (v : α) : List (String × α) → List (String × α)
  | [] => [(k, v)]
  | (k', v') :: rest =>
      if k' = k then (k, v) :: rest else (k', v') :: mapSet k v rest

/-- Association-list lookup with Map.get semantics. -/
def mapGet (k : String) (m : List (String × α)) : Option α :=
  (m.find? (fun e => e.1 == k)).map (fun e => e.2)

/-- Association-list removal with Map.delete semantics. -/
def mapDelete (k : String) (m : List (String × α)) : List (String × α) :=
  m.filter (fun e => !(e.1 == k))

/-- Update the first element satisfying p, as mutating the object returned
by Array.prototype.find does in the source. -/
def updateFirst (p : GamePlayer → Bool) (f : GamePlayer → GamePlayer) :
    List GamePlayer → List GamePlayer
  | [] => []
  | x :: xs => if p x then f x :: xs else x :: updateFirst p f xs

namespace DB

/-- INSERT INTO games: createGame of the database service; the status
column takes its declared default value of waiting. -/
def createGame (d : DB) (row : DBGameRow) : DB :=
  { d with games := d.games ++ [row] }

/-- SELECT * FROM games WHERE id: findGameById. -/
def findGameById (d : DB) (gameId : String) : Option DBGameRow :=
  d.games.find? (fun g => g.id == gameId)

/-- INSERT INTO game_players: addPlayerToGame (score takes default 0). -/
def addPlayerToGame (d : DB) (gameId userId : String) (isAi : Bool) : DB :=
  { d with game_players :=
      d.game_players ++ [⟨gameId, userId, isAi, 0⟩] }

/-- DELETE FROM game_players WHERE game_id AND user_id:
removePlayerFromGame. -/
def removePlayerFromGame (d : DB) (gameId userId : String) : DB :=
  let keep := fun (r : DBPlayerRow) =>
    !(r.game_id == gameId && r.user_id == userId)
  { d with game_players := d.game_players.filter keep }

/-- SELECT gp.*, u.username with a LEFT JOIN on users: getGamePlayers.
Returns each matching row paired with the joined username column. -/
def getGamePlayers (d : DB) (gameId : String) :
    List (DBPlayerRow × Option String) :=
  let joined := fun (r : DBPlayerRow) =>
    (r, (d.users.find? (fun u => u.1 == r.user_id)).map (fun u => u.2))
  (d.game_players.filter (fun r => r.game_id == gameId)).map joined

/-- UPDATE games SET status: updateGameStatus. -/
def updateGameStatus (d : DB) (gameId : String) (status : GameStatus) : DB :=
  let upd := fun (g : DBGameRow) =>
    if g.id == gameId then { g with status } else g
  { d with games := d.games.map upd }

/-- INSERT INTO game_moves: recordGameMove. -/
def recordGameMove (d : DB) (gameId userId : String) (paddleY : ℚ)
    (timestamp : ℕ) : DB :=
  { d with game_moves := d.game_moves ++ [⟨gameId, userId, paddleY, timestamp⟩] }

/-- UPDATE game_players SET score WHERE game_id AND user_id:
updatePlayerScore. -/
def updatePlayerScore (d : DB) (gameId userId : String) (score : ℤ) : DB :=
  let upd := fun (r : DBPlayerRow) =>
    if r.game_id == gameId && r.user_id == userId then { r with score } else r
  { d with game_players := d.game_players.map upd }

/-- SELECT COUNT(*) WHERE game_id AND user_id, compared with 0:
isUserInGame. -/
def isUserInGame (d : DB) (gameId userId : String) : Bool :=
  d.game_players.any (fun r => r.game_id == gameId && r.user_id == userId)

/-- SELECT COUNT(*) WHERE game_id: getGamePlayerCount. -/
def getGamePlayerCount (d : DB) (gameId : String) : ℕ :=
  (d.game_players.filter (fun r => r.game_id == gameId)).length

end DB

/-- Math.sign. -/
def qsign (x : ℚ) : ℚ :=
  if x < 0 then -1 else if 0 < x then 1 else 0

/-- initializeBall: center position, horizontal direction chosen by a
Math.random draw compared with 0.5, small random vertical component. -/
def initializeBall (r1 r2 : ℚ) : Ball :=
  { x := 0.5
    y := 0.5
    velocityX := if 0.5 < r1 then 0.6 else -0.6
    velocityY := (r2 - 0.5) * 0.4
    speed := 1 }

/-- resetBall: serve from center toward the side opposite the server. -/
def resetBall (servingPlayer : Side) (rand : ℚ) : Ball :=
  { x := 0.5
    y := 0.5
    velocityX := if servingPlayer = Side.left then 0.6 else -0.6
    velocityY := (rand - 0.5) * 0.4
    speed := 1 }

/-- Position integration of updateBallPhysics, with the fixed nominal
tick of 1/60 second. -/
def integrateBall (b : Ball) : Ball :=
  { b with
      x := b.x + b.velocityX * b.speed * (1 / 60)
      y := b.y + b.velocityY * b.speed * (1 / 60) }

/-- Wall bounce of updateBallPhysics: on y at or beyond either horizontal
wall, negate the vertical velocity and clamp y into the unit interval. -/
def wallBounce (b : Ball) : Ball :=
  if b.y ≤ 0 ∨ 1 ≤ b.y then
    { b with velocityY := -b.velocityY, y := max 0 (min 1 b.y) }
  else b

/-- Left paddle collision block of updateBallPhysics. -/
def leftPaddleCollide (players : List GamePlayer) (b : Ball) : Ball :=
  match players.find? (fun p => p.side == Side.left) with
  | some lp =>
      if b.x ≤ 0.05 ∧ b.velocityX < 0 then
        if lp.paddleY - 0.1 ≤ b.y ∧ b.y ≤ lp.paddleY + 0.1 then
          { b with
              velocityX := -b.velocityX
              velocityY := b.velocityY + (b.y - lp.paddleY) * 2
              speed := b.speed * 1.05
              x := 0.05 }
        else b
      else b
  | none => b

/-- Right paddle collision block of updateBallPhysics. -/
def rightPaddleCollide (players : List GamePlayer) (b : Ball) : Ball :=
  match players.find? (fun p => p.side == Side.right) with
  | some rp =>
      if 0.95 ≤ b.x ∧ 0 < b.velocityX then
        if rp.paddleY - 0.1 ≤ b.y ∧ b.y ≤ rp.paddleY + 0.1 then
          { b with
              velocityX := -b.velocityX
              velocityY := b.velocityY + (b.y - rp.paddleY) * 2
              speed := b.speed * 1.05
              x := 0.95 }
        else b
      else b
  | none => b

/-- Scoring block of updateBallPhysics: on an exit past either vertical
edge, increment the opposite participant's score (when that participant
exists) and serve again; otherwise just store the moved ball. -/
def scoreStep (g : GameState) (b : Ball) (rand : ℚ) : GameState :=
  if b.x < 0 then
    match g.players.find? (fun p => p.side == Side.right) with
    | some _ =>
        { g with
            players := updateFirst (fun p => p.side == Side.right)
              (fun p => { p with score := p.score + 1 }) g.players
            ball := resetBall Side.right rand }
    | none => { g with ball := b }
  else if 1 < b.x then
    match g.players.find? (fun p => p.side == Side.left) with
    | some _ =>
        { g with
            players := updateFirst (fun p => p.side == Side.left)
              (fun p => { p with score := p.score + 1 }) g.players
            ball := resetBall Side.left rand }
    | none => { g with ball := b }
  else { g with ball := b }

/-- Guard of the game-end block: the participant reference on the given
side exists and its score has reached winningScore. -/
def sideScoreReached (g : GameState) (s : Side) : Bool :=
  match g.players.find? (fun p => p.side == s) with
  | some p => decide (g.winningScore ≤ p.score)
  | none => false

/-- Game-end block of updateBallPhysics: if the first left-side or first
right-side participant has reached winningScore, mark the game finished.
The source reads the scores through the references captured earlier, which
alias the objects whose scores the scoring block just incremented, so the
check is performed on the updated roster. -/
def finishCheck (g : GameState) : GameState :=
  if sideScoreReached g Side.left then { g with status := GameStatus.finished }
  else if sideScoreReached g Side.right then
    { g with status := GameStatus.finished }
  else g

/-- updateBallPhysics: integrate, bounce off the horizontal walls, test
both paddle collisions, apply scoring and the end-of-game check.  The
single Math.random draw consumed by a possible resetBall call is the
explicit rand argument. -/
def updateBallPhysics (g : GameState) (rand : ℚ) : GameState :=
  let b1 := wallBounce (integrateBall g.ball)
  let b2 := leftPaddleCollide g.players b1
  let b3 := rightPaddleCollide g.players b2
  finishCheck (scoreStep g b3 rand)

/-- createAIOpponent: the fixed difficulty table. -/
def createAIOpponent (difficulty : Difficulty) : AIOpponent :=
  match difficulty with
  | Difficulty.easy => ⟨Difficulty.easy, 0.3, 0.6, 300⟩
  | Difficulty.medium => ⟨Difficulty.medium, 0.5, 0.75, 200⟩
  | Difficulty.hard => ⟨Difficulty.hard, 0.7, 0.85, 150⟩
  | Difficulty.expert => ⟨Difficulty.expert, 0.9, 0.95, 100⟩

/-- calculateAIMove: predict the ball's arrival height when it moves
toward the right side, perturb the target by difficulty-scaled noise, and
move at most speed * 0.02 away from a current position that the source
hardcodes to the constant 0.5 (its own comment notes that a real
implementation would use the opponent's actual current position). -/
def calculateAIMove (aiConfig : Option AIOpponent) (ball : Ball)
    (rand : ℚ) : ℚ :=
  match aiConfig with
  | none => 0.5
  | some cfg =>
      let predictedY :=
        if 0 < ball.velocityX then
          let timeToReach := (0.95 - ball.x) / ball.velocityX
          max 0.1 (min 0.9 (ball.y + ball.velocityY * timeToReach))
        else ball.y
      let noise := (rand - 0.5) * (1 - cfg.accuracy) * 0.3
      let targetY := predictedY + noise
      let currentY : ℚ := 0.5
      let maxMove := cfg.speed * 0.02
      let diff := targetY - currentY
      let move := qsign diff * min |diff| maxMove
      max 0.1 (min 0.9 (currentY + move))

/-- The name under which a difficulty tier is stored in the difficulty
columns and fields. -/
def difficultyName : Difficulty → String
  | Difficulty.easy => "easy"
  | Difficulty.medium => "medium"
  | Difficulty.hard => "hard"
  | Difficulty.expert => "expert"

/-- State owned by the GameService instance: the database handle and the
three in-memory maps games, gameConnections and aiOpponents. -/
structure ServiceState where
  db : DB
  games : List (String × GameState)
  gameConnections : List (String × List Chan)
  aiOpponents : List (String × AIOpponent)
deriving Repr, DecidableEq

/-- Record of one broadcastGameState call that found a connection set:
the serialized snapshot and the connections whose send was attempted. -/
structure BroadcastRec where
  gameId : String
  snapshot : GameState
  attempted : List ℕ
deriving Repr, DecidableEq

/-- The forEach loop of broadcastGameState: every connection's send is
attempted inside its own try block; a connection whose send throws is
deleted from the set and the loop continues.  Returns the surviving
connection set and the identifiers attempted, in order. -/
def sendAll : List Chan → List Chan × List ℕ
  | [] => ([], [])
  | c :: cs =>
      let r := sendAll cs
      if c.sendOk then (c :: r.1, c.cid :: r.2) else (r.1, c.cid :: r.2)

/-- broadcastGameState: return silently when no connection set exists for
the game, otherwise serialize the snapshot once and attempt delivery to
every connection, pruning those whose send throws. -/
def broadcastGameState (s : ServiceState) (gameId : String)
    (g : GameState) : ServiceState × List BroadcastRec :=
  match mapGet gameId s.gameConnections with
  | none => (s, [])
  | some chans =>
      let r := sendAll chans
      ({ s with gameConnections := mapSet gameId r.1 s.gameConnections },
       [⟨gameId, g, r.2⟩])

/-- createPvPGame: persist the game row and the creator's player row,
then install the fresh in-memory state (creator alone on the left,
status waiting) and an empty connection set.  The randomly produced
identifier and room code and the two Math.random draws feeding
initializeBall are explicit arguments. -/
def createPvPGame (s : ServiceState) (createdBy username : String)
    (isPrivate : Bool) (maxPlayers : ℕ) (gameId roomCodeVal : String)
    (now : ℕ) (r1 r2 : ℚ) : GameState × ServiceState :=
  let roomCode := if isPrivate then some roomCodeVal else none
  let d1 := s.db.createGame
    ⟨gameId, createdBy, roomCode, isPrivate, maxPlayers, false, none,
     GameStatus.waiting⟩
  let d2 := d1.addPlayerToGame gameId createdBy false
  let gameState : GameState :=
    { gameId
      players := [⟨createdBy, username, 0.5, 0, false, Side.left⟩]
      ball := initializeBall r1 r2
      status := GameStatus.waiting
      isPrivate
      maxPlayers
      roomCode
      isAiGame := false
      difficulty := none
      lastUpdate := now
      winningScore := 11
      gameStartTime := none }
  (gameState,
   { s with
       db := d2
       games := mapSet gameId gameState s.games
       gameConnections := mapSet gameId [] s.gameConnections })

/-- createAIGame: persist the game row and both player rows (the human
and the synthetic player with identifier ai), install the difficulty
configuration, and install the in-memory state with the human on the
left, the synthetic opponent on the right, and status active. -/
def createAIGame (s : ServiceState) (userId username : String)
    (difficulty : Difficulty) (gameId : String) (now : ℕ)
    (r1 r2 : ℚ) : GameState × ServiceState :=
  let d1 := s.db.createGame
    ⟨gameId, userId, none, false, 2, true, some (difficultyName difficulty),
     GameStatus.waiting⟩
  let d2 := (d1.addPlayerToGame gameId userId false).addPlayerToGame
    gameId "ai" true
  let aiConfig := createAIOpponent difficulty
  let gameState : GameState :=
    { gameId
      players :=
        [⟨userId, username, 0.5, 0, false, Side.left⟩,
         ⟨"ai", "AI", 0.5, 0, true, Side.right⟩]
      ball := initializeBall r1 r2
      status := GameStatus.active
      isPrivate := false
      maxPlayers := 2
      roomCode := none
      isAiGame := true
      difficulty := some (difficultyName difficulty)
      lastUpdate := now
      winningScore := 11
      gameStartTime := some now }
  (gameState,
   { s with
       db := d2
       games := mapSet gameId gameState s.games
       gameConnections := mapSet gameId [] s.gameConnections
       aiOpponents := mapSet gameId aiConfig s.aiOpponents })

/-- Failure modes of joinGame, matching the thrown error messages. -/
inductive JoinErr where
  | gameNotFound
  | invalidRoomCode
  | gameFull
  | alreadyInGame
deriving Repr, DecidableEq

/-- Index-aware map used for the roster reconstruction branches, which
assign the side from the row position (index 0 left, all others right). -/
def mapWithIndexAux (f : ℕ → α → β) (i : ℕ) : List α → List β
  | [] => []
  | x :: xs => f i x :: mapWithIndexAux f (i + 1) xs

/-- Map a function receiving the position of each element. -/
def mapWithIndex (f : ℕ → α → β) (l : List α) : List β :=
  mapWithIndexAux f 0 l

/-- The username ∥ fallback of the reconstruction branches: a missing or
empty joined username column is replaced by the string AI. -/
def usernameOrAI : Option String → String
  | some u => if u == "" then "AI" else u
  | none => "AI"

/-- joinGame: validate against the database (existence, room code,
capacity, duplicate membership), persist the new player row, reconstruct
the in-memory state from the database when absent, append the new
participant choosing right exactly when one participant is present, and
activate the game once the roster length equals maxPlayers. -/
def joinGame (s : ServiceState) (gameId userId username : String)
    (roomCode : Option String) (now : ℕ) (r1 r2 : ℚ) :
    Except JoinErr GameState × ServiceState × List BroadcastRec :=
  match s.db.findGameById gameId with
  | none => (Except.error JoinErr.gameNotFound, s, [])
  | some game =>
      if game.is_private ∧ roomCode ≠ game.room_code then
        (Except.error JoinErr.invalidRoomCode, s, [])
      else if game.max_players ≤ s.db.getGamePlayerCount gameId then
        (Except.error JoinErr.gameFull, s, [])
      else if s.db.isUserInGame gameId userId then
        (Except.error JoinErr.alreadyInGame, s, [])
      else
        let d1 := s.db.addPlayerToGame gameId userId false
        let rowToPlayer := fun (i : ℕ) (r : DBPlayerRow × Option String) =>
          (⟨r.1.user_id, usernameOrAI r.2, 0.5, r.1.score, r.1.is_ai,
            if i = 0 then Side.left else Side.right⟩ : GamePlayer)
        let gameState :=
          match mapGet gameId s.games with
          | some g => g
          | none =>
              { gameId
                players := mapWithIndex rowToPlayer (d1.getGamePlayers gameId)
                ball := initializeBall r1 r2
                status := game.status
                isPrivate := game.is_private
                maxPlayers := game.max_players
                roomCode := game.room_code
                isAiGame := game.is_ai_game
                difficulty := game.difficulty
                lastUpdate := now
                winningScore := 11
                gameStartTime := none }
        let newPlayerSide :=
          if gameState.players.length = 1 then Side.right else Side.left
        let newPlayer : GamePlayer :=
          ⟨userId, username, 0.5, 0, false, newPlayerSide⟩
        let g1 := { gameState with players := gameState.players ++ [newPlayer] }
        let started := g1.players.length = g1.maxPlayers
        let g2 :=
          if started then
            { g1 with status := GameStatus.active, gameStartTime := some now }
          else g1
        let d2 :=
          if started then d1.updateGameStatus gameId GameStatus.active else d1
        let g3 := { g2 with lastUpdate := now }
        let s1 := { s with db := d2, games := mapSet gameId g3 s.games }
        let br := broadcastGameState s1 gameId g3
        (Except.ok g3, br.1, br.2)

/-- Identifies one awaited persistence call inside handlePlayerMove, so a
failure oracle can make any individual call reject. -/
inductive DbCall where
  | isUserInGameCall
  | recordGameMoveCall (userId : String)
  | updatePlayerScoreCall (userId : String)
deriving Repr, DecidableEq

/-- Failure modes of handlePlayerMove: the three thrown validation errors
plus a rejected persistence promise propagating out of the handler. -/
inductive MoveErr where
  | gameNotFound
  | userNotInGame
  | gameNotActive
  | dbFailure
deriving Repr, DecidableEq

/-- The score persistence loop at the end of handlePlayerMove: one
awaited updatePlayerScore per roster entry, in order; a rejection aborts
the loop, keeping the writes already performed.  The Bool reports whether
the loop ran to completion. -/
def persistScores (dbFail : DbCall → Bool) (gameId : String) :
    List GamePlayer → DB → DB × Bool
  | [], d => (d, true)
  | p :: ps, d =>
      if dbFail (DbCall.updatePlayerScoreCall p.userId) then (d, false)
      else persistScores dbFail gameId ps
        (d.updatePlayerScore gameId p.userId p.score)

/-- handlePlayerMove: validate, clamp and store the mover's paddle,
record the move, let the synthetic opponent answer in an AI game, run one
physics step, persist the scores, and broadcast.  Awaited persistence
calls reject exactly where the dbFail oracle says so; state mutated
before a rejection survives it, as it does on the shared in-memory
objects of the source. -/
def handlePlayerMove (s : ServiceState) (gameId userId : String)
    (paddleY : ℚ) (timestamp : Option ℕ) (now : ℕ) (aiRand physRand : ℚ)
    (dbFail : DbCall → Bool) :
    Except MoveErr Unit × ServiceState × List BroadcastRec :=
  match mapGet gameId s.games with
  | none => (Except.error MoveErr.gameNotFound, s, [])
  | some g =>
      if dbFail DbCall.isUserInGameCall then
        (Except.error MoveErr.dbFailure, s, [])
      else if !(s.db.isUserInGame gameId userId) then
        (Except.error MoveErr.userNotInGame, s, [])
      else if g.status ≠ GameStatus.active then
        (Except.error MoveErr.gameNotActive, s, [])
      else
        let moveTimestamp :=
          match timestamp with
          | some t => if t = 0 then now else t
          | none => now
        let clampPaddle := fun (p : GamePlayer) =>
          { p with paddleY := max 0.1 (min 0.9 paddleY) }
        let movedPlayers :=
          updateFirst (fun p => p.userId == userId) clampPaddle g.players
        let g1 := { g with players := movedPlayers }
        let s1 := { s with games := mapSet gameId g1 s.games }
        let finishMove := fun (g2 : GameState) (s3 : ServiceState) =>
          let g3 := updateBallPhysics g2 physRand
          let s4 := { s3 with games := mapSet gameId g3 s3.games }
          let pres := persistScores dbFail gameId g3.players s4.db
          if pres.2 then
            let g4 := { g3 with lastUpdate := now }
            let s5 := { s4 with
                        db := pres.1
                        games := mapSet gameId g4 s4.games }
            let br := broadcastGameState s5 gameId g4
            (Except.ok (), br.1, br.2)
          else
            (Except.error MoveErr.dbFailure, { s4 with db := pres.1 }, [])
        if dbFail (DbCall.recordGameMoveCall userId) then
          (Except.error MoveErr.dbFailure, s1, [])
        else
          let s2 := { s1 with db :=
            s1.db.recordGameMove gameId userId paddleY moveTimestamp }
          if g1.isAiGame then
            match g1.players.find? (fun p => p.isAi) with
            | some _ =>
                let aiMove :=
                  calculateAIMove (mapGet gameId s2.aiOpponents) g1.ball aiRand
                let setAiPaddle := fun (p : GamePlayer) =>
                  { p with paddleY := aiMove }
                let aiPlayers :=
                  updateFirst (fun p => p.isAi) setAiPaddle g1.players
                let g2 := { g1 with players := aiPlayers }
                let s3 := { s2 with games := mapSet gameId g2 s2.games }
                if dbFail (DbCall.recordGameMoveCall "ai") then
                  (Except.error MoveErr.dbFailure, s3, [])
                else
                  let d3 := s3.db.recordGameMove gameId "ai" aiMove now
                  finishMove g2 { s3 with db := d3 }
            | none => finishMove g1 s2
          else finishMove g1 s2

/-- Failure mode of leaveGame. -/
inductive LeaveErr where
  | gameNotFound
deriving Repr, DecidableEq

/-- leaveGame: remove the player's persisted row and roster entry; when
the roster becomes empty, or in an AI game only the synthetic player
remains, mark the game finished in the database and drop all three
in-memory entries; otherwise broadcast the shrunken roster. -/
def leaveGame (s : ServiceState) (gameId userId : String) (now : ℕ) :
    Except LeaveErr Unit × ServiceState × List BroadcastRec :=
  match mapGet gameId s.games with
  | none => (Except.error LeaveErr.gameNotFound, s, [])
  | some g =>
      let d1 := s.db.removePlayerFromGame gameId userId
      let remaining := g.players.filter (fun p => !(p.userId == userId))
      let g1 := { g with players := remaining }
      let onlyAiLeft := g1.isAiGame && g1.players.length == 1 &&
        (match g1.players.head? with
         | some p => p.isAi
         | none => false)
      if g1.players.isEmpty || onlyAiLeft then
        (Except.ok (),
         { s with
             db := d1.updateGameStatus gameId GameStatus.finished
             games := mapDelete gameId s.games
             gameConnections := mapDelete gameId s.gameConnections
             aiOpponents := mapDelete gameId s.aiOpponents },
         [])
      else
        let g2 := { g1 with lastUpdate := now }
        let s1 := { s with db := d1, games := mapSet gameId g2 s.games }
        let br := broadcastGameState s1 gameId g2
        (Except.ok (), br.1, br.2)

/-- Failure mode of updateScore. -/
inductive ScoreErr where
  | gameNotFound
deriving Repr, DecidableEq

/-- updateScore: overwrite the named participant's score with the value
carried by the message (when the participant exists), persist it, and
broadcast. -/
def updateScore (s : ServiceState) (gameId userId : String) (score : ℤ)
    (now : ℕ) : Except ScoreErr Unit × ServiceState × List BroadcastRec :=
  match mapGet gameId s.games with
  | none => (Except.error ScoreErr.gameNotFound, s, [])
  | some g =>
      let found := g.players.any (fun p => p.userId == userId)
      let setScore := fun (p : GamePlayer) => { p with score }
      let g1 :=
        if found then
          { g with players :=
              updateFirst (fun p => p.userId == userId) setScore g.players }
        else g
      let d1 :=
        if found then s.db.updatePlayerScore gameId userId score else s.db
      let g2 := { g1 with lastUpdate := now }
      let s1 := { s with db := d1, games := mapSet gameId g2 s.games }
      let br := broadcastGameState s1 gameId g2
      (Except.ok (), br.1, br.2)

/-- Number of roster entries on a given side. -/
def countSide (s : Side) (ps : List GamePlayer) : ℕ :=
  (ps.filter (fun p => p.side == s)).length

/-- Users table shared by the concrete scenarios below. -/
def seedUsers : List (String × String) :=
  [("u1", "alice"), ("u2", "bob"), ("u3", "carol")]

/-- Service holding no games yet. -/
def emptyService : ServiceState := ⟨⟨[], [], [], seedUsers⟩, [], [], []⟩

/-- Scenario: u1 creates a public two-player game g1. -/
def pvpCreated : ServiceState :=
  (createPvPGame emptyService "u1" "alice" false 2 "g1" "RC" 0 0.6 0.5).2

/-- Scenario: u2 joins g1, which becomes active. -/
def pvpActive : ServiceState :=
  (joinGame pvpCreated "g1" "u2" "bob" none 1 0.6 0.5).2.1

/-- Scenario: u1 leaves the active game g1. -/
def pvpAfterLeave : ServiceState :=
  (leaveGame pvpActive "g1" "u1" 2).2.1

/-- Scenario: u1 creates an AI game a1 (which starts active). -/
def aiCreated : ServiceState :=
  (createAIGame emptyService "u1" "alice" Difficulty.medium "a1" 0 0.6 0.5).2

/-- Scenario: u1 leaves a1, leaving only the synthetic player. -/
def aiAfterLeave : ServiceState :=
  (leaveGame aiCreated "a1" "u1" 1).2.1

/-- Scenario: a score_update message sets u1's score to 11 in active g1. -/
def pvpScore11 : ServiceState :=
  (updateScore pvpActive "g1" "u1" 11 2).2.1

/-- Scenario: u2 also leaves g1, emptying it (g1 ends finished). -/
def pvpEmptied : ServiceState :=
  (leaveGame pvpAfterLeave "g1" "u2" 3).2.1

/-- Scenario: u3 joins the emptied, finished g1. -/
def pvpRejoined : ServiceState :=
  (joinGame pvpEmptied "g1" "u3" "carol" none 4 0.6 0.5).2.1

/-- Scenario: a score_update message sets u1's score to 5 in active g1. -/
def pvpScore5 : ServiceState :=
  (updateScore pvpActive "g1" "u1" 5 2).2.1

/-- Scenario: a later score_update message lowers u1's score to 3. -/
def pvpScore3 : ServiceState :=
  (updateScore pvpScore5 "g1" "u1" 3 3).2.1

/-- An expert AI game in which the synthetic paddle was last stored at
0.9 and the ball flies toward a low point on the right side. -/
def aiGameFixture : GameState :=
  { gameId := "a1"
    players := [⟨"u1", "alice", 0.5, 0, false, Side.left⟩,
                ⟨"ai", "AI", 0.9, 0, true, Side.right⟩]
    ball := ⟨0.5, 0.1, 0.6, 0, 1⟩
    status := GameStatus.active
    isPrivate := false
    maxPlayers := 2
    roomCode := none
    isAiGame := true
    difficulty := some "expert"
    lastUpdate := 0
    winningScore := 11
    gameStartTime := none }

/-- Database rows matching aiGameFixture. -/
def aiDbFixture : DB :=
  ⟨[⟨"a1", "u1", none, false, 2, true, some "expert", GameStatus.active⟩],
   [⟨"a1", "u1", false, 0⟩, ⟨"a1", "ai", true, 0⟩], [], seedUsers⟩

/-- Service state holding aiGameFixture in memory with an empty
connection set and the expert difficulty configuration. -/
def aiServiceFixture : ServiceState :=
  ⟨aiDbFixture, [("a1", aiGameFixture)], [("a1", [])],
   [("a1", createAIOpponent Difficulty.expert)]⟩

/-- Persistence behavior in which every call resolves. -/
def noDbFailure : DbCall → Bool := fun _ => false

/-- Persistence behavior in which recording u1's move rejects. -/
def recordMoveFails : DbCall → Bool := fun c =>
  match c with
  | DbCall.recordGameMoveCall u => u == "u1"
  | _ => false

/-- Two-player PvP game whose ball is about to exit past the left edge
away from the left paddle. -/
def exitGameFixture : GameState :=
  { gameId := "g1"
    players := [⟨"u1", "alice", 0.5, 0, false, Side.left⟩,
                ⟨"u2", "bob", 0.5, 0, false, Side.right⟩]
    ball := ⟨0.01, 0.1, -0.9, 0, 1⟩
    status := GameStatus.active
    isPrivate := false
    maxPlayers := 2
    roomCode := none
    isAiGame := false
    difficulty := none
    lastUpdate := 0
    winningScore := 11
    gameStartTime := some 0 }

/-- Game whose ball is about to cross the lower wall (y past 1). -/
def wallGameFixture : GameState :=
  { exitGameFixture with ball := ⟨0.5, 0.99, 0, 0.9, 1⟩ }

/-- Connection set with one healthy and one failing channel. -/
def mixedChans : List Chan := [⟨1, true⟩, ⟨2, false⟩, ⟨3, true⟩]

/-- Service state whose game g1 has the mixed connection set. -/
def hubFixture : ServiceState :=
  ⟨⟨[], [], [], []⟩, [("g1", exitGameFixture)], [("g1", mixedChans)], []⟩

/-- The in-memory state of g1 once it is active (extracted from the map). -/
def pvpActiveGame : GameState :=
  match mapGet "g1" pvpActive.games with
  | some g => g
  | none => exitGameFixture

/-- The in-memory state of g1 after the score_update to 11. -/
def pvpScore11Game : GameState :=
  match mapGet "g1" pvpScore11.games with
  | some g => g
  | none => exitGameFixture

/-- The session returned by u2's successful join of g1. -/
def pvpJoinPayload : GameState :=
  match (joinGame pvpCreated "g1" "u2" "bob" none 1 0.6 0.5).1 with
  | Except.ok g => g
  | Except.error _ => exitGameFixture

/-- Service state after u1 sends the out-of-range paddle value 5.7 in
the expert AI game. -/
def aiMovedState : ServiceState :=
  (handlePlayerMove aiServiceFixture "a1" "u1" 5.7 none 1 0.5 0.5
    noDbFailure).2.1

/-- The in-memory state of a1 after that move (extracted from the map). -/
def aiMovedGame : GameState :=
  match mapGet "a1" aiMovedState.games with
  | some g => g
  | none => exitGameFixture

/-- The mover's roster entry after that move. -/
def aiMovedMover : GamePlayer :=
  match aiMovedGame.players.find? (fun p => p.userId == "u1") with
  | some p => p
  | none => ⟨"", "", 0, 0, false, Side.left⟩

theorem decide_side_ll : (decide (Side.left = Side.left)) = true := rfl

theorem decide_side_lr : (decide (Side.left = Side.right)) = false := rfl

theorem decide_side_rl : (decide (Side.right = Side.left)) = false := rfl

theorem decide_side_rr : (decide (Side.right = Side.right)) = true := rfl

theorem mapGet_mapSet_self (k : String) (v : α) (m : List (String × α)) :
    mapGet k (mapSet k v m) = some v := by
  induction m with
  | nil => simp [mapGet, mapSet]
  | cons e rest ih =>
      by_cases h : e.1 = k
      · simp [mapGet, mapSet, h]
      · simp [mapGet, mapSet, h, List.find?]
        simpa [mapGet] using ih

theorem sendAll_eq (l : List Chan) :
    sendAll l = (l.filter (fun c => c.sendOk), l.map (fun c => c.cid)) := by
  induction l with
  | nil => rfl
  | cons c cs ih =>
      cases h : c.sendOk <;> simp [sendAll, ih, List.filter, h]

theorem broadcastGameState_games (s : ServiceState) (gameId : String)
    (g : GameState) : (broadcastGameState s gameId g).1.games = s.games := by
  unfold broadcastGameState
  cases mapGet gameId s.gameConnections <;> rfl

theorem broadcastGameState_db (s : ServiceState) (gameId : String)
    (g : GameState) : (broadcastGameState s gameId g).1.db = s.db := by
  unfold broadcastGameState
  cases mapGet gameId s.gameConnections <;> rfl

theorem finishCheck_players (g : GameState) :
    (finishCheck g).players = g.players := by
  unfold finishCheck
  split <;> [rfl; split <;> rfl]

theorem finishCheck_ball (g : GameState) : (finishCheck g).ball = g.ball := by
  unfold finishCheck
  split <;> [rfl; split <;> rfl]

theorem finishCheck_winningScore (g : GameState) :
    (finishCheck g).winningScore = g.winningScore := by
  unfold finishCheck
  split <;> [rfl; split <;> rfl]

theorem scoreStep_status (g : GameState) (b : Ball) (r : ℚ) :
    (scoreStep g b r).status = g.status := by
  unfold scoreStep
  split
  · split <;> rfl
  · split
    · split <;> rfl
    · rfl

theorem scoreStep_winningScore (g : GameState) (b : Ball) (r : ℚ) :
    (scoreStep g b r).winningScore = g.winningScore := by
  unfold scoreStep
  split
  · split <;> rfl
  · split
    · split <;> rfl
    · rfl

theorem leftPaddleCollide_y (ps : List GamePlayer) (b : Ball) :
    (leftPaddleCollide ps b).y = b.y := by
  unfold leftPaddleCollide
  split <;> try rfl
  split <;> [skip; rfl]
  split <;> rfl

theorem rightPaddleCollide_y (ps : List GamePlayer) (b : Ball) :
    (rightPaddleCollide ps b).y = b.y := by
  unfold rightPaddleCollide
  split <;> try rfl
  split <;> [skip; rfl]
  split <;> rfl

theorem wallBounce_y_bounds (b : Ball) :
    0 ≤ (wallBounce b).y ∧ (wallBounce b).y ≤ 1 := by
  unfold wallBounce
  split
  · constructor
    · exact le_max_left 0 _
    · simp only [max_le_iff]
      exact ⟨by norm_num, min_le_left 1 _⟩
  · rename_i h
    push_neg at h
    exact ⟨le_of_lt h.1, le_of_lt h.2⟩

theorem wallBounce_velocityY_cross (b : Ball) (h : b.y ≤ 0 ∨ 1 ≤ b.y) :
    (wallBounce b).velocityY = -b.velocityY := by
  unfold wallBounce
  rw [if_pos h]

theorem wallBounce_velocityY_nocross (b : Ball) (h : ¬(b.y ≤ 0 ∨ 1 ≤ b.y)) :
    (wallBounce b).velocityY = b.velocityY := by
  unfold wallBounce
  rw [if_neg h]

theorem integrateBall_velocityY (b : Ball) :
    (integrateBall b).velocityY = b.velocityY := rfl

theorem find?_updateFirst_self (p : GamePlayer → Bool)
    (f : GamePlayer → GamePlayer) (l : List GamePlayer)
    (hf : ∀ x, p (f x) = p x) :
    (updateFirst p f l).find? p = (l.find? p).map f := by
  induction l with
  | nil => rfl
  | cons x xs ih =>
      by_cases h : p x = true
      · simp [updateFirst, h, List.find?, hf]
      · simp only [Bool.not_eq_true] at h
        simp [updateFirst, h, List.find?, ih]

theorem find?_updateFirst_of_ne (p q : GamePlayer → Bool)
    (f : GamePlayer → GamePlayer) (l : List GamePlayer)
    (hpq : ∀ x, p x = true → q x = false)
    (hfq : ∀ x, q (f x) = q x) :
    (updateFirst p f l).find? q = l.find? q := by
  induction l with
  | nil => rfl
  | cons x xs ih =>
      by_cases h : p x = true
      · have hq : q x = false := hpq x h
        have hqf : q (f x) = false := by rw [hfq, hq]
        simp [updateFirst, h, List.find?, hq, hqf]
      · simp only [Bool.not_eq_true] at h
        cases hq : q x <;> simp [updateFirst, h, List.find?, hq, ih]

theorem find?_updateFirst_cases (p q : GamePlayer → Bool)
    (f : GamePlayer → GamePlayer) (l : List GamePlayer) (y : GamePlayer)
    (hfq : ∀ x, q (f x) = q x)
    (h : (updateFirst p f l).find? q = some y) :
    ∃ x, l.find? q = some x ∧ (y = x ∨ y = f x) := by
  induction l with
  | nil => simp [updateFirst, List.find?] at h
  | cons a as ih =>
      by_cases hp : p a = true
      · simp only [updateFirst, hp, if_pos] at h
        by_cases hq : q a = true
        · have hqf : q (f a) = true := by rw [hfq, hq]
          simp [List.find?, hqf] at h
          exact ⟨a, by simp [List.find?, hq], Or.inr h.symm⟩
        · simp only [Bool.not_eq_true] at hq
          have hqf : q (f a) = false := by rw [hfq, hq]
          simp [List.find?, hqf] at h
          exact ⟨y, by simp [List.find?, hq, h], Or.inl rfl⟩
      · simp only [Bool.not_eq_true] at hp
        simp only [updateFirst, hp, Bool.false_eq_true, if_neg,
          not_false_iff] at h
        by_cases hq : q a = true
        · simp [List.find?, hq] at h ⊢
          exact Or.inl h.symm
        · simp only [Bool.not_eq_true] at hq
          simp only [List.find?, hq] at h ⊢
          exact ih h

set_option linter.unnecessarySimpa false in
theorem mapGet_mapDelete_self (k : String) (m : List (String × α)) :
    mapGet k (mapDelete k m) = none := by
  induction m with
  | nil => rfl
  | cons e rest ih =>
      by_cases h : e.1 = k
      · simp only [mapDelete, List.filter, h, beq_self_eq_true,
          Bool.not_true] at ih ⊢
        exact ih
      · simpa [mapDelete, mapGet, List.find?, h] using ih

theorem sideScoreReached_finishCheck (m : GameState) (s : Side) :
    sideScoreReached (finishCheck m) s = sideScoreReached m s := by
  unfold sideScoreReached
  rw [finishCheck_players, finishCheck_winningScore]

theorem finishCheck_status_iff (m : GameState) :
    (finishCheck m).status = GameStatus.finished ↔
      (m.status = GameStatus.finished
        ∨ sideScoreReached m Side.left = true
        ∨ sideScoreReached m Side.right = true) := by
  unfold finishCheck
  by_cases hl : sideScoreReached m Side.left = true
  · simp [hl]
  · by_cases hr : sideScoreReached m Side.right = true
    · simp [hl, hr]
    · simp [hl, hr]

theorem clamp_paddle_bounds (v : ℚ) :
    0.1 ≤ max 0.1 (min 0.9 v) ∧ max 0.1 (min 0.9 v) ≤ 0.9 := by
  constructor
  · exact le_max_left _ _
  · exact max_le (by norm_num) (min_le_left _ _)

theorem calculateAIMove_bounds (cfg : Option AIOpponent) (b : Ball) (r : ℚ) :
    0.1 ≤ calculateAIMove cfg b r ∧ calculateAIMove cfg b r ≤ 0.9 := by
  unfold calculateAIMove
  cases cfg with
  | none => norm_num
  | some c =>
      simp only
      exact ⟨le_max_left _ _, max_le (by norm_num) (min_le_left _ _)⟩

theorem forall₂_score_le_refl (l : List GamePlayer) :
    List.Forall₂ (fun a b => a.score ≤ b.score) l l := by
  induction l with
  | nil => exact List.Forall₂.nil
  | cons x xs ih => exact List.Forall₂.cons (le_refl x.score) ih

theorem forall₂_score_le_updateFirst (p : GamePlayer → Bool)
    (f : GamePlayer → GamePlayer) (l : List GamePlayer)
    (hf : ∀ x, x.score ≤ (f x).score) :
    List.Forall₂ (fun a b => a.score ≤ b.score) l (updateFirst p f l) := by
  induction l with
  | nil => exact List.Forall₂.nil
  | cons x xs ih =>
      by_cases h : p x = true
      · simp only [updateFirst, h, if_pos]
        exact List.Forall₂.cons (hf x) (forall₂_score_le_refl xs)
      · simp only [Bool.not_eq_true] at h
        simp only [updateFirst, h, Bool.false_eq_true, if_neg, not_false_iff]
        exact List.Forall₂.cons (le_refl x.score) ih

theorem updateBallPhysics_y_bounds (g : GameState) (r : ℚ) :
    0 ≤ (updateBallPhysics g r).ball.y ∧ (updateBallPhysics g r).ball.y ≤ 1 := by
  have hb := wallBounce_y_bounds (integrateBall g.ball)
  have hl := leftPaddleCollide_y g.players (wallBounce (integrateBall g.ball))
  have hr := rightPaddleCollide_y g.players
    (leftPaddleCollide g.players (wallBounce (integrateBall g.ball)))
  simp only [updateBallPhysics]
  rw [finishCheck_ball]
  simp only [scoreStep]
  split
  · split
    · constructor <;> norm_num [resetBall]
    · simp only
      rw [hr, hl]
      exact hb
  · split
    · split
      · constructor <;> norm_num [resetBall]
      · simp only
        rw [hr, hl]
        exact hb
    · simp only
      rw [hr, hl]
      exact hb

theorem updateBallPhysics_players_paddle (g : GameState) (r : ℚ)
    (q : GamePlayer → Bool)
    (hq : ∀ x, q { x with score := x.score + 1 } = q x) (pl : GamePlayer)
    (h : (updateBallPhysics g r).players.find? q = some pl) :
    ∃ x, g.players.find? q = some x ∧ pl.paddleY = x.paddleY := by
  rw [updateBallPhysics, finishCheck_players] at h
  simp only [scoreStep] at h
  split at h
  · split at h
    · simp only at h
      obtain ⟨x, hx, hy⟩ := find?_updateFirst_cases _ q _ _ pl (fun x => hq x) h
      refine ⟨x, hx, ?_⟩
      rcases hy with hy | hy <;> rw [hy]
  -- the incremented player keeps its paddle
    · exact ⟨pl, h, rfl⟩
  · split at h
    · split at h
      · simp only at h
        obtain ⟨x, hx, hy⟩ := find?_updateFirst_cases _ q _ _ pl (fun x => hq x) h
        refine ⟨x, hx, ?_⟩
        rcases hy with hy | hy <;> rw [hy]
      · exact ⟨pl, h, rfl⟩
    · exact ⟨pl, h, rfl⟩

/-- C5: for every physics step on a session whose ball y lies in the unit
interval, the resulting ball y lies in the unit interval, and a crossing
of the y boundary during integration negates the vertical velocity
exactly once (and a non-crossing leaves it untouched by the wall block). -/
theorem claim_C5_wall_bounce (g : GameState) (r : ℚ)
    (_h : 0 ≤ g.ball.y ∧ g.ball.y ≤ 1) :
    (0 ≤ (updateBallPhysics g r).ball.y ∧ (updateBallPhysics g r).ball.y ≤ 1)
    ∧ (((integrateBall g.ball).y ≤ 0 ∨ 1 ≤ (integrateBall g.ball).y) →
        (wallBounce (integrateBall g.ball)).velocityY = -(g.ball.velocityY))
    ∧ (¬((integrateBall g.ball).y ≤ 0 ∨ 1 ≤ (integrateBall g.ball).y) →
        (wallBounce (integrateBall g.ball)).velocityY = g.ball.velocityY) := by
  refine ⟨updateBallPhysics_y_bounds g r, ?_, ?_⟩
  · intro hc
    rw [wallBounce_velocityY_cross _ hc, integrateBall_velocityY]
  · intro hc
    rw [wallBounce_velocityY_nocross _ hc, integrateBall_velocityY]

/-- C10 (amended): across a physics step the roster is preserved pointwise
and every participant's score is non-decreasing; the externally supplied
updateScore message instead overwrites a score and may lower it (see the
counterexample). -/
theorem claim_C10_amended (g : GameState) (r : ℚ) :
    List.Forall₂ (fun a b => a.score ≤ b.score) g.players
      (updateBallPhysics g r).players := by
  simp only [updateBallPhysics]
  rw [finishCheck_players]
  simp only [scoreStep]
  split
  · split
    · simp only
      refine forall₂_score_le_updateFirst _ _ _ (fun x => ?_)
      simp only
      omega
    · exact forall₂_score_le_refl g.players
  · split
    · split
      · simp only
        refine forall₂_score_le_updateFirst _ _ _ (fun x => ?_)
        simp only
        omega
      · exact forall₂_score_le_refl g.players
    · exact forall₂_score_le_refl g.players

/-- C1 (amended): the physics step finishes a session exactly when, after
the step, the first left-side or first right-side participant's score has
reached winningScore (or the session was already finished); a session that
is not active — in particular a finished one — is rejected by
handlePlayerMove without any physics; but leaveGame also finishes a
session whose roster empties or retains only the synthetic participant,
and an updateScore message never changes the status even when it pushes a
score to the threshold (and a later join can refill and re-activate a
finished session, see the counterexample). -/
theorem claim_C1_amended :
    (∀ (g : GameState) (r : ℚ),
      (updateBallPhysics g r).status = GameStatus.finished ↔
        (g.status = GameStatus.finished
          ∨ sideScoreReached (updateBallPhysics g r) Side.left = true
          ∨ sideScoreReached (updateBallPhysics g r) Side.right = true))
    ∧ (∀ (s : ServiceState) (gameId userId : String) (paddleY : ℚ)
        (ts : Option ℕ) (now : ℕ) (aiR physR : ℚ) (dbFail : DbCall → Bool)
        (g : GameState),
        mapGet gameId s.games = some g →
        dbFail DbCall.isUserInGameCall = false →
        s.db.isUserInGame gameId userId = true →
        g.status ≠ GameStatus.active →
        handlePlayerMove s gameId userId paddleY ts now aiR physR dbFail =
          (Except.error MoveErr.gameNotActive, s, []))
    ∧ (∀ (s : ServiceState) (gameId userId : String) (now : ℕ)
        (g : GameState),
        mapGet gameId s.games = some g →
        ((g.players.filter (fun p => !(p.userId == userId))).isEmpty
          || (g.isAiGame
              && (g.players.filter (fun p => !(p.userId == userId))).length == 1
              && (match (g.players.filter (fun p => !(p.userId == userId))).head? with
                  | some p => p.isAi
                  | none => false))) = true →
        (leaveGame s gameId userId now).2.1.db =
          (s.db.removePlayerFromGame gameId userId).updateGameStatus gameId
            GameStatus.finished
        ∧ mapGet gameId (leaveGame s gameId userId now).2.1.games = none)
    ∧ (∀ (s : ServiceState) (gameId userId : String) (score : ℤ) (now : ℕ)
        (g g' : GameState),
        mapGet gameId s.games = some g →
        mapGet gameId (updateScore s gameId userId score now).2.1.games =
          some g' →
        g'.status = g.status) := by
  refine ⟨?_, ?_, ?_, ?_⟩
  · intro g r
    simp only [updateBallPhysics]
    rw [finishCheck_status_iff, sideScoreReached_finishCheck,
      sideScoreReached_finishCheck, scoreStep_status]
  · intro s gameId userId paddleY ts now aiR physR dbFail g hmem hdb huser
      hstatus
    simp only [handlePlayerMove, hmem, hdb, huser]
    simp [hstatus]
  · intro s gameId userId now g hmem hfin
    simp only [leaveGame, hmem]
    simp only [hfin, if_pos]
    exact ⟨trivial, mapGet_mapDelete_self gameId s.games⟩
  · intro s gameId userId score now g g' hmem hg'
    simp only [updateScore, hmem] at hg'
    rw [broadcastGameState_games] at hg'
    simp only [mapGet_mapSet_self, Option.some.injEq] at hg'
    subst hg'
    by_cases hf : (g.players.any fun p => p.userId == userId) = true
    · simp [hf]
    · simp [hf]

/-- C4: in every physics step whose moved ball (after wall bounce and both
paddle collision tests) exits past a vertical edge while the opposite side
is occupied, the opposite participant's score rises by exactly one, the
conceding side's participant record is untouched, and the ball is reset to
the center with unit speed multiplier and horizontal velocity pointed at
the side that conceded. -/
theorem claim_C4_scoring (g : GameState) (r : ℚ) :
    ((rightPaddleCollide g.players (leftPaddleCollide g.players
        (wallBounce (integrateBall g.ball)))).x < 0 →
      ∀ rp, g.players.find? (fun p => p.side == Side.right) = some rp →
        ((updateBallPhysics g r).players.find?
            (fun p => p.side == Side.right)).map (fun p => p.score) =
          some (rp.score + 1)
        ∧ (updateBallPhysics g r).players.find? (fun p => p.side == Side.left)
            = g.players.find? (fun p => p.side == Side.left)
        ∧ (updateBallPhysics g r).ball = resetBall Side.right r
        ∧ resetBall Side.right r =
            ⟨0.5, 0.5, -0.6, (r - 0.5) * 0.4, 1⟩ ∧ (-0.6 : ℚ) < 0)
    ∧ (1 < (rightPaddleCollide g.players (leftPaddleCollide g.players
        (wallBounce (integrateBall g.ball)))).x →
      ∀ lp, g.players.find? (fun p => p.side == Side.left) = some lp →
        ((updateBallPhysics g r).players.find?
            (fun p => p.side == Side.left)).map (fun p => p.score) =
          some (lp.score + 1)
        ∧ (updateBallPhysics g r).players.find? (fun p => p.side == Side.right)
            = g.players.find? (fun p => p.side == Side.right)
        ∧ (updateBallPhysics g r).ball = resetBall Side.left r
        ∧ resetBall Side.left r =
            ⟨0.5, 0.5, 0.6, (r - 0.5) * 0.4, 1⟩ ∧ (0 : ℚ) < 0.6) := by
  constructor
  · intro hx rp hrp
    have hleft_of_right : ∀ x : GamePlayer,
        (x.side == Side.right) = true → (x.side == Side.left) = false := by
      intro x hxx
      cases hcs : x.side
      · rw [hcs] at hxx
        exact absurd hxx (by decide)
      · rfl
    refine ⟨?_, ?_, ?_, ?_, by norm_num⟩
    · simp only [updateBallPhysics]
      rw [finishCheck_players]
      simp only [scoreStep, if_pos hx, hrp]
      rw [find?_updateFirst_self (fun p => p.side == Side.right)
        (fun p => { p with score := p.score + 1 }) g.players
        (fun x => rfl), hrp]
      rfl
    · simp only [updateBallPhysics]
      rw [finishCheck_players]
      simp only [scoreStep, if_pos hx, hrp]
      exact find?_updateFirst_of_ne (fun p => p.side == Side.right)
        (fun p => p.side == Side.left)
        (fun p => { p with score := p.score + 1 }) g.players
        hleft_of_right (fun x => rfl)
    · simp only [updateBallPhysics]
      rw [finishCheck_ball]
      simp only [scoreStep, if_pos hx, hrp]
    · simp [resetBall]
  · intro hx lp hlp
    have hx0 : ¬((rightPaddleCollide g.players (leftPaddleCollide g.players
        (wallBounce (integrateBall g.ball)))).x < 0) := by linarith
    have hright_of_left : ∀ x : GamePlayer,
        (x.side == Side.left) = true → (x.side == Side.right) = false := by
      intro x hxx
      cases hcs : x.side
      · rfl
      · rw [hcs] at hxx
        exact absurd hxx (by decide)
    refine ⟨?_, ?_, ?_, ?_, by norm_num⟩
    · simp only [updateBallPhysics]
      rw [finishCheck_players]
      simp only [scoreStep, if_neg hx0, if_pos hx, hlp]
      rw [find?_updateFirst_self (fun p => p.side == Side.left)
        (fun p => { p with score := p.score + 1 }) g.players
        (fun x => rfl), hlp]
      rfl
    · simp only [updateBallPhysics]
      rw [finishCheck_players]
      simp only [scoreStep, if_neg hx0, if_pos hx, hlp]
      exact find?_updateFirst_of_ne (fun p => p.side == Side.left)
        (fun p => p.side == Side.right)
        (fun p => { p with score := p.score + 1 }) g.players
        hright_of_left (fun x => rfl)
    · simp only [updateBallPhysics]
      rw [finishCheck_ball]
      simp only [scoreStep, if_neg hx0, if_pos hx, hlp]
    · simp [resetBall]

/-- C8: a broadcast over a connection set with at least one failing
channel attempts every channel, surfaces no failure (it is a total
function returning the pruned set), removes exactly the failing channels,
and a subsequent broadcast attempts only the surviving channels. -/
theorem claim_C8_broadcast_pruning (s : ServiceState) (gameId : String)
    (g g2 : GameState) (chans : List Chan)
    (hc : mapGet gameId s.gameConnections = some chans)
    (_hfail : ∃ c ∈ chans, c.sendOk = false) :
    (broadcastGameState s gameId g).2 =
      [⟨gameId, g, chans.map (fun c => c.cid)⟩]
    ∧ mapGet gameId (broadcastGameState s gameId g).1.gameConnections =
        some (chans.filter (fun c => c.sendOk))
    ∧ (∀ c ∈ chans, c.sendOk = false →
        c ∉ chans.filter (fun c => c.sendOk))
    ∧ (broadcastGameState (broadcastGameState s gameId g).1 gameId g2).2 =
        [⟨gameId, g2, (chans.filter (fun c => c.sendOk)).map
          (fun c => c.cid)⟩] := by
  have h1 : broadcastGameState s gameId g =
      ({ s with
          gameConnections := mapSet gameId (chans.filter (fun c => c.sendOk)) s.gameConnections },
       [⟨gameId, g, chans.map (fun c => c.cid)⟩]) := by
    unfold broadcastGameState
    rw [hc]
    simp only [sendAll_eq]
  refine ⟨by rw [h1], ?_, ?_, ?_⟩
  · rw [h1]
    exact mapGet_mapSet_self gameId _ s.gameConnections
  · intro c _hmem hbad hin
    rw [List.mem_filter] at hin
    rw [hbad] at hin
    exact Bool.false_ne_true hin.2
  · rw [h1]
    unfold broadcastGameState
    rw [mapGet_mapSet_self]
    simp only [sendAll_eq]

/-- C9: a join against a session whose persisted roster has reached the
configured maximum fails with the full-game conflict and leaves the whole
service state (database and in-memory maps alike) unchanged. -/
theorem claim_C9_join_full (s : ServiceState)
    (gameId userId username : String) (roomCode : Option String) (now : ℕ)
    (r1 r2 : ℚ) (row : DBGameRow)
    (hrow : s.db.findGameById gameId = some row)
    (hroom : ¬(row.is_private = true ∧ roomCode ≠ row.room_code))
    (hfull : row.max_players ≤ s.db.getGamePlayerCount gameId) :
    joinGame s gameId userId username roomCode now r1 r2 =
      (Except.error JoinErr.gameFull, s, []) := by
  simp only [joinGame, hrow]
  rw [if_neg, if_pos hfull]
  intro hcontra
  exact hroom ⟨by exact_mod_cast hcontra.1, hcontra.2⟩

/-- C1 (counterexample): leaving an AI game finishes it with every
persisted score still 0 (refuting the only-if direction); a score_update
message raises a score to 11 while the session stays active (refuting the
if direction); and emptying g1 finishes it, after which a later join
re-activates it (refuting that Finished is terminal). -/
theorem claim_C1_counterexample :
    ((aiAfterLeave.db.findGameById "a1").map (fun r => r.status) =
        some GameStatus.finished
      ∧ aiAfterLeave.db.game_players.all (fun r => decide (r.score < 11)) =
        true)
    ∧ ((mapGet "g1" pvpScore11.games).map (fun g => g.status) =
        some GameStatus.active
      ∧ ((mapGet "g1" pvpScore11.games).bind
          (fun g => (g.players.find? (fun p => p.userId == "u1")).map
            (fun p => p.score))) = some 11)
    ∧ ((pvpEmptied.db.findGameById "g1").map (fun r => r.status) =
        some GameStatus.finished
      ∧ (mapGet "g1" pvpRejoined.games).map (fun g => g.status) =
        some GameStatus.active) := by
  decide

/-- C1 (witness): the amended statement applied at concrete states: a
waiting game rejects a move without mutation, leaving an AI game marks it
finished in the database and evicts it, and the score_update that pushed
u1 to 11 left the status untouched. -/
theorem claim_C1_witness :
    (handlePlayerMove pvpCreated "g1" "u1" 0.5 none 9 0.5 0.5 noDbFailure =
      (Except.error MoveErr.gameNotActive, pvpCreated, []))
    ∧ ((leaveGame aiCreated "a1" "u1" 1).2.1.db =
        (aiCreated.db.removePlayerFromGame "a1" "u1").updateGameStatus "a1"
          GameStatus.finished
      ∧ mapGet "a1" (leaveGame aiCreated "a1" "u1" 1).2.1.games = none)
    ∧ pvpScore11Game.status = pvpActiveGame.status := by
  refine ⟨?_, ?_, ?_⟩
  · exact claim_C1_amended.2.1 pvpCreated "g1" "u1" 0.5 none 9 0.5 0.5
      noDbFailure ((createPvPGame emptyService "u1" "alice" false 2 "g1"
        "RC" 0 0.6 0.5).1) rfl rfl rfl (by decide)
  · exact claim_C1_amended.2.2.1 aiCreated "a1" "u1" 1
      ((createAIGame emptyService "u1" "alice" Difficulty.medium "a1" 0
        0.6 0.5).1) rfl (by decide)
  · exact claim_C1_amended.2.2.2 pvpActive "g1" "u1" 11 2 pvpActiveGame
      pvpScore11Game rfl rfl

/-- C3 (counterexample): after u1 leaves the active two-player game g1,
the session is still active with no left-side participant. -/
theorem claim_C3_counterexample :
    (mapGet "g1" pvpActive.games).map
      (fun g => (g.status, countSide Side.left g.players,
        countSide Side.right g.players)) =
      some (GameStatus.active, 1, 1)
    ∧ (mapGet "g1" pvpAfterLeave.games).map
      (fun g => (g.status, countSide Side.left g.players,
        countSide Side.right g.players)) =
      some (GameStatus.active, 0, 1) := by
  decide

/-- C3 (amended): a session created with a synthetic opponent is active
with exactly one participant per side, and a join that fills a
two-participant session whose sole participant sits on the left yields an
active session with exactly one participant per side; the invariant fails
once a participant leaves an active session (see the counterexample) or
when maxPlayers exceeds two (later joiners are all assigned left). -/
theorem claim_C3_amended :
    (∀ (s : ServiceState) (userId username : String)
        (difficulty : Difficulty) (gameId : String) (now : ℕ) (r1 r2 : ℚ),
      (createAIGame s userId username difficulty gameId now r1 r2).1.status
          = GameStatus.active
      ∧ countSide Side.left
          (createAIGame s userId username difficulty gameId now
            r1 r2).1.players = 1
      ∧ countSide Side.right
          (createAIGame s userId username difficulty gameId now
            r1 r2).1.players = 1)
    ∧ (∀ (s : ServiceState) (gameId userId username : String)
        (roomCode : Option String) (now : ℕ) (r1 r2 : ℚ)
        (row : DBGameRow) (g : GameState) (p : GamePlayer) (g2 : GameState),
      s.db.findGameById gameId = some row →
      ¬(row.is_private = true ∧ roomCode ≠ row.room_code) →
      s.db.getGamePlayerCount gameId < row.max_players →
      s.db.isUserInGame gameId userId = false →
      mapGet gameId s.games = some g →
      g.players = [p] →
      p.side = Side.left →
      g.maxPlayers = 2 →
      (joinGame s gameId userId username roomCode now r1 r2).1 =
        Except.ok g2 →
      g2.status = GameStatus.active
      ∧ countSide Side.left g2.players = 1
      ∧ countSide Side.right g2.players = 1) := by
  constructor
  · intro s userId username difficulty gameId now r1 r2
    refine ⟨rfl, ?_, ?_⟩ <;>
      simp [createAIGame, countSide, List.filter, instBEqOfDecidableEq]
  · intro s gameId userId username roomCode now r1 r2 row g p g2 hrow hroom
      hcap huser hmem hplayers hside hmax hg2
    simp only [joinGame, hrow] at hg2
    rw [if_neg hroom, if_neg (Nat.not_le.mpr hcap)] at hg2
    simp only [huser, Bool.false_eq_true, if_neg, not_false_iff,
      hmem] at hg2
    rw [hplayers] at hg2
    simp only [List.length_cons, List.length_nil, List.length_append,
      hmax] at hg2
    simp only [Except.ok.injEq] at hg2
    subst hg2
    refine ⟨rfl, ?_, ?_⟩ <;>
      simp [countSide, List.filter, hside, instBEqOfDecidableEq]

/-- C3 (witness): the amended statement at concrete states: the expert AI
game is created balanced, and u2's join of the freshly created g1
produces an active session with one participant per side. -/
theorem claim_C3_witness :
    ((createAIGame emptyService "u1" "alice" Difficulty.expert "a2" 0
        0.6 0.5).1.status = GameStatus.active
      ∧ countSide Side.left
          (createAIGame emptyService "u1" "alice" Difficulty.expert "a2" 0
            0.6 0.5).1.players = 1
      ∧ countSide Side.right
          (createAIGame emptyService "u1" "alice" Difficulty.expert "a2" 0
            0.6 0.5).1.players = 1)
    ∧ (pvpJoinPayload.status = GameStatus.active
      ∧ countSide Side.left pvpJoinPayload.players = 1
      ∧ countSide Side.right pvpJoinPayload.players = 1) := by
  constructor
  · exact claim_C3_amended.1 emptyService "u1" "alice" Difficulty.expert
      "a2" 0 0.6 0.5
  · exact claim_C3_amended.2 pvpCreated "g1" "u2" "bob" none 1 0.6 0.5
      ⟨"g1", "u1", none, false, 2, false, none, GameStatus.waiting⟩
      ((createPvPGame emptyService "u1" "alice" false 2 "g1" "RC" 0
        0.6 0.5).1)
      ⟨"u1", "alice", 0.5, 0, false, Side.left⟩
      pvpJoinPayload rfl (by decide) (by decide) (by decide) rfl rfl rfl
      rfl rfl

/-- C10 (counterexample): a second score_update message lowers u1's score
from 5 to 3 while the session is still active, so scores are not
monotone under the full operation set. -/
theorem claim_C10_counterexample :
    ((mapGet "g1" pvpScore5.games).bind
      (fun g => (g.players.find? (fun p => p.userId == "u1")).map
        (fun p => p.score))) = some 5
    ∧ ((mapGet "g1" pvpScore3.games).bind
      (fun g => (g.players.find? (fun p => p.userId == "u1")).map
        (fun p => p.score))) = some 3
    ∧ (mapGet "g1" pvpScore3.games).map (fun g => g.status) =
        some GameStatus.active
    ∧ (3 : ℤ) < 5 := by
  decide

/-- C4 (witness): in the concrete game whose ball exits past the left
edge, the right participant's score becomes 1, the left participant is
untouched, and the ball is reset to center with unit speed, serving
toward the conceding (left) side. -/
theorem claim_C4_witness :
    ((updateBallPhysics exitGameFixture 0.5).players.find?
        (fun p => p.side == Side.right)).map (fun p => p.score) =
      some ((0 : ℤ) + 1)
    ∧ (updateBallPhysics exitGameFixture 0.5).players.find?
        (fun p => p.side == Side.left) =
      exitGameFixture.players.find? (fun p => p.side == Side.left)
    ∧ (updateBallPhysics exitGameFixture 0.5).ball =
      resetBall Side.right 0.5
    ∧ resetBall Side.right 0.5 =
      ⟨0.5, 0.5, -0.6, ((0.5 : ℚ) - 0.5) * 0.4, 1⟩ ∧ (-0.6 : ℚ) < 0 := by
  refine (claim_C4_scoring exitGameFixture 0.5).1 ?_
    ⟨"u2", "bob", 0.5, 0, false, Side.right⟩ rfl
  norm_num [exitGameFixture, integrateBall, wallBounce, leftPaddleCollide,
    rightPaddleCollide, instBEqOfDecidableEq, List.find?, decide_side_ll,
    decide_side_lr, decide_side_rl, decide_side_rr]

/-- C5 (witness): in the concrete game whose integrated ball crosses the
lower wall, the crossing flips the vertical velocity and the resulting y
stays inside the unit interval. -/
theorem claim_C5_witness :
    (1 ≤ (integrateBall wallGameFixture.ball).y)
    ∧ (wallBounce (integrateBall wallGameFixture.ball)).velocityY =
        -(wallGameFixture.ball.velocityY)
    ∧ (0 ≤ (updateBallPhysics wallGameFixture 0.5).ball.y
      ∧ (updateBallPhysics wallGameFixture 0.5).ball.y ≤ 1) := by
  have hcross : (1 : ℚ) ≤ (integrateBall wallGameFixture.ball).y := by
    norm_num [wallGameFixture, exitGameFixture, integrateBall]
  have h := claim_C5_wall_bounce wallGameFixture 0.5
    (by norm_num [wallGameFixture, exitGameFixture])
  exact ⟨hcross, h.2.1 (Or.inr hcross), h.1⟩

/-- C8 (witness): broadcasting over the mixed connection set attempts all
three channels, prunes the failing one, and the follow-up broadcast
attempts only the two healthy channels. -/
theorem claim_C8_witness :
    (broadcastGameState hubFixture "g1" exitGameFixture).2 =
      [⟨"g1", exitGameFixture, mixedChans.map (fun c => c.cid)⟩]
    ∧ mapGet "g1"
        (broadcastGameState hubFixture "g1"
          exitGameFixture).1.gameConnections =
      some (mixedChans.filter (fun c => c.sendOk))
    ∧ (∀ c ∈ mixedChans, c.sendOk = false →
        c ∉ mixedChans.filter (fun c => c.sendOk))
    ∧ (broadcastGameState
        (broadcastGameState hubFixture "g1" exitGameFixture).1 "g1"
        exitGameFixture).2 =
      [⟨"g1", exitGameFixture,
        (mixedChans.filter (fun c => c.sendOk)).map (fun c => c.cid)⟩] := by
  exact claim_C8_broadcast_pruning hubFixture "g1" exitGameFixture
    exitGameFixture mixedChans rfl ⟨⟨2, false⟩, by decide, rfl⟩

/-- C9 (witness): u3's join of the full game g1 fails with the full-game
conflict and leaves the service state untouched. -/
theorem claim_C9_witness :
    joinGame pvpActive "g1" "u3" "carol" none 5 0.6 0.5 =
      (Except.error JoinErr.gameFull, pvpActive, []) := by
  exact claim_C9_join_full pvpActive "g1" "u3" "carol" none 5 0.6 0.5
    ⟨"g1", "u1", none, false, 2, false, none, GameStatus.active⟩ rfl
    (by decide) (by decide)

/-- C2: the synthetic opponent's stored paddle sits at 0.9 in
aiGameFixture, yet one move event leaves its paddle at 0.482: the
recomputation anchors at the hardcoded constant 0.5 instead of the stored
position (the source comments that a real implementation would use the
current position), so the paddle jumps by 0.418, far beyond the per-step
displacement speed × 0.02 = 0.018 of the expert tier. -/
theorem claim_C2_hardcoded_anchor :
    ((mapGet "a1" (handlePlayerMove aiServiceFixture "a1" "u1" 0.5 none 1
        0.5 0.5 noDbFailure).2.1.games).bind
      (fun g => (g.players.find? (fun p => p.isAi)).map
        (fun p => p.paddleY))) = some 0.482
    ∧ ((mapGet "a1" aiServiceFixture.games).bind
      (fun g => (g.players.find? (fun p => p.isAi)).map
        (fun p => p.paddleY))) = some 0.9
    ∧ |(0.482 : ℚ) - 0.9| > (createAIOpponent Difficulty.expert).speed
        * 0.02 := by
  refine ⟨?_, ?_, ?_⟩
  · norm_num [handlePlayerMove, aiServiceFixture, aiGameFixture,
      aiDbFixture, seedUsers, noDbFailure, mapGet, mapSet,
      calculateAIMove, createAIOpponent, qsign, min_def, max_def, abs,
      updateFirst, updateBallPhysics, integrateBall, wallBounce,
      leftPaddleCollide, rightPaddleCollide, scoreStep, finishCheck,
      sideScoreReached, persistScores, broadcastGameState, sendAll,
      instBEqOfDecidableEq, List.find?, List.filter, List.any,
      decide_side_ll, decide_side_lr, decide_side_rl, decide_side_rr,
      DB.isUserInGame, DB.recordGameMove, DB.updatePlayerScore]
  · norm_num [aiServiceFixture, aiGameFixture, mapGet, List.find?,
      instBEqOfDecidableEq]
  · rw [show |(0.482 : ℚ) - 0.9| = 0.418 by rw [abs_of_neg] <;> norm_num]
    norm_num [createAIOpponent]

/-- C7 (counterexample): with the recordGameMove persistence call
rejecting, the move event aborts: the clamped paddle update is already in
memory (2 was clamped to 0.9 and survives), but the ball is untouched (no
physics step ran) and no broadcast was emitted, contradicting the claim
that the physics step and broadcast still complete. -/
theorem claim_C7_counterexample :
    (handlePlayerMove aiServiceFixture "a1" "u1" 2 none 1 0.5 0.5
        recordMoveFails).1 = Except.error MoveErr.dbFailure
    ∧ (handlePlayerMove aiServiceFixture "a1" "u1" 2 none 1 0.5 0.5
        recordMoveFails).2.2 = []
    ∧ ((mapGet "a1" (handlePlayerMove aiServiceFixture "a1" "u1" 2 none 1
        0.5 0.5 recordMoveFails).2.1.games).map (fun g => g.ball)) =
      some aiGameFixture.ball
    ∧ ((mapGet "a1" (handlePlayerMove aiServiceFixture "a1" "u1" 2 none 1
        0.5 0.5 recordMoveFails).2.1.games).bind
      (fun g => (g.players.find? (fun p => p.userId == "u1")).map
        (fun p => p.paddleY))) = some 0.9 := by
  refine ⟨rfl, rfl, rfl, ?_⟩
  norm_num [handlePlayerMove, aiServiceFixture, aiGameFixture,
    aiDbFixture, seedUsers, recordMoveFails, mapGet, mapSet, updateFirst,
    min_def, max_def, instBEqOfDecidableEq, List.find?,
    DB.isUserInGame, List.any]

/-- C7 (amended): a rejected persistence call never rolls back the
in-memory mutation already applied — after a failed recordGameMove the
session still carries the clamped paddle update — but it aborts the
handler: the physics step and the broadcast that would follow the failing
call do not happen for that move event. -/
theorem claim_C7_amended (s : ServiceState) (gameId userId : String)
    (paddleY : ℚ) (ts : Option ℕ) (now : ℕ) (aiR physR : ℚ)
    (dbFail : DbCall → Bool) (g : GameState)
    (hmem : mapGet gameId s.games = some g)
    (hdb : dbFail DbCall.isUserInGameCall = false)
    (huser : s.db.isUserInGame gameId userId = true)
    (hactive : g.status = GameStatus.active)
    (hrec : dbFail (DbCall.recordGameMoveCall userId) = true) :
    (handlePlayerMove s gameId userId paddleY ts now aiR physR dbFail).1 =
      Except.error MoveErr.dbFailure
    ∧ (handlePlayerMove s gameId userId paddleY ts now aiR physR
        dbFail).2.2 = []
    ∧ (handlePlayerMove s gameId userId paddleY ts now aiR physR
        dbFail).2.1 =
      { s with
          games := mapSet gameId { g with
            players := updateFirst (fun p => p.userId == userId)
              (fun p => { p with paddleY := max 0.1 (min 0.9 paddleY) })
              g.players } s.games } := by
  simp only [handlePlayerMove, hmem, hdb, huser, hactive, hrec,
    Bool.false_eq_true, if_false, Bool.not_true, ne_eq,
    not_true_eq_false, if_true]
  refine ⟨?_, ?_, ?_⟩ <;> first | rfl | trivial

/-- C7 (witness): the amended statement at the concrete aborting move. -/
theorem claim_C7_witness :
    (handlePlayerMove aiServiceFixture "a1" "u1" 2 none 1 0.5 0.5
        recordMoveFails).1 = Except.error MoveErr.dbFailure
    ∧ (handlePlayerMove aiServiceFixture "a1" "u1" 2 none 1 0.5 0.5
        recordMoveFails).2.2 = []
    ∧ (handlePlayerMove aiServiceFixture "a1" "u1" 2 none 1 0.5 0.5
        recordMoveFails).2.1 =
      { aiServiceFixture with
          games := mapSet "a1" { aiGameFixture with
            players := updateFirst (fun p => p.userId == "u1")
              (fun p => { p with paddleY := max 0.1 (min 0.9 2) })
              aiGameFixture.players } aiServiceFixture.games } := by
  exact claim_C7_amended aiServiceFixture "a1" "u1" 2 none 1 0.5 0.5
    recordMoveFails aiGameFixture rfl rfl rfl rfl rfl

theorem clamped_find_bounds (userId : String) (v : ℚ)
    (l : List GamePlayer) (x : GamePlayer)
    (hx : (updateFirst (fun p => p.userId == userId)
      (fun p => { p with paddleY := max 0.1 (min 0.9 v) }) l).find?
        (fun p => p.userId == userId) = some x) :
    0.1 ≤ x.paddleY ∧ x.paddleY ≤ 0.9 := by
  rw [find?_updateFirst_self (fun p => p.userId == userId)
    (fun p => { p with paddleY := max 0.1 (min 0.9 v) }) l
    (fun y => rfl)] at hx
  cases h0 : l.find? (fun p => p.userId == userId) with
  | none => rw [h0] at hx; simp at hx
  | some y =>
      rw [h0] at hx
      simp only [Option.map_some', Option.some.injEq] at hx
      subst hx
      exact clamp_paddle_bounds v

theorem ai_overwrite_find_bounds (userId : String) (v w : ℚ)
    (hw : 0.1 ≤ w ∧ w ≤ 0.9) (l : List GamePlayer) (x : GamePlayer)
    (hx : (updateFirst (fun p => p.isAi) (fun p => { p with paddleY := w })
      (updateFirst (fun p => p.userId == userId)
        (fun p => { p with paddleY := max 0.1 (min 0.9 v) }) l)).find?
          (fun p => p.userId == userId) = some x) :
    0.1 ≤ x.paddleY ∧ x.paddleY ≤ 0.9 := by
  obtain ⟨x1, hx1, hc⟩ := find?_updateFirst_cases (fun p => p.isAi)
    (fun p => p.userId == userId) (fun p => { p with paddleY := w }) _ x
    (fun y => rfl) hx
  rcases hc with hc | hc
  · rw [hc]
    exact clamped_find_bounds userId v l x1 hx1
  · rw [hc]
    exact hw

/-- C6: whatever real number a participant of an active session supplies
as a paddle position, the position stored for that participant after the
move handler runs (including its physics step and possible synthetic
response, and on every persistence outcome) lies in the interval
from 0.1 to 0.9. -/
theorem claim_C6_move_clamped (s : ServiceState) (gameId userId : String)
    (paddleY : ℚ) (ts : Option ℕ) (now : ℕ) (aiR physR : ℚ)
    (dbFail : DbCall → Bool) (g g' : GameState) (pl : GamePlayer)
    (hmem : mapGet gameId s.games = some g)
    (hdb : dbFail DbCall.isUserInGameCall = false)
    (huser : s.db.isUserInGame gameId userId = true)
    (hactive : g.status = GameStatus.active)
    (hg' : mapGet gameId (handlePlayerMove s gameId userId paddleY ts now
      aiR physR dbFail).2.1.games = some g')
    (hfind : g'.players.find? (fun p => p.userId == userId) = some pl) :
    0.1 ≤ pl.paddleY ∧ pl.paddleY ≤ 0.9 := by
  simp only [handlePlayerMove, hmem, hdb, huser, hactive,
    Bool.false_eq_true, if_false, Bool.not_true, ne_eq,
    not_true_eq_false, if_true] at hg'
  split at hg'
  · dsimp only at hg'
    rw [mapGet_mapSet_self, Option.some.injEq] at hg'
    subst hg'
    exact clamped_find_bounds userId paddleY g.players pl hfind
  · split at hg'
    · -- AI game: the synthetic opponent answers
      split at hg'
      · -- a synthetic participant was found
        split at hg'
        · -- recording the synthetic move rejects
          dsimp only at hg'
          rw [mapGet_mapSet_self, Option.some.injEq] at hg'
          subst hg'
          exact ai_overwrite_find_bounds userId paddleY _
            (calculateAIMove_bounds _ _ _) g.players pl hfind
        · -- physics step over the AI-updated roster
          split at hg'
          · dsimp only at hg'
            rw [broadcastGameState_games] at hg'
            dsimp only at hg'
            rw [mapGet_mapSet_self, Option.some.injEq] at hg'
            subst hg'
            obtain ⟨x, hx, hpy⟩ := updateBallPhysics_players_paddle _
              physR (fun p => p.userId == userId) (fun y => rfl) pl hfind
            rw [hpy]
            exact ai_overwrite_find_bounds userId paddleY _
              (calculateAIMove_bounds _ _ _) g.players x hx
          · dsimp only at hg'
            rw [mapGet_mapSet_self, Option.some.injEq] at hg'
            subst hg'
            obtain ⟨x, hx, hpy⟩ := updateBallPhysics_players_paddle _
              physR (fun p => p.userId == userId) (fun y => rfl) pl hfind
            rw [hpy]
            exact ai_overwrite_find_bounds userId paddleY _
              (calculateAIMove_bounds _ _ _) g.players x hx
      · -- no synthetic participant: plain physics step
        split at hg'
        · dsimp only at hg'
          rw [broadcastGameState_games] at hg'
          dsimp only at hg'
          rw [mapGet_mapSet_self, Option.some.injEq] at hg'
          subst hg'
          obtain ⟨x, hx, hpy⟩ := updateBallPhysics_players_paddle _
            physR (fun p => p.userId == userId) (fun y => rfl) pl hfind
          rw [hpy]
          exact clamped_find_bounds userId paddleY g.players x hx
        · dsimp only at hg'
          rw [mapGet_mapSet_self, Option.some.injEq] at hg'
          subst hg'
          obtain ⟨x, hx, hpy⟩ := updateBallPhysics_players_paddle _
            physR (fun p => p.userId == userId) (fun y => rfl) pl hfind
          rw [hpy]
          exact clamped_find_bounds userId paddleY g.players x hx
    · -- not an AI game: plain physics step
      split at hg'
      · dsimp only at hg'
        rw [broadcastGameState_games] at hg'
        dsimp only at hg'
        rw [mapGet_mapSet_self, Option.some.injEq] at hg'
        subst hg'
        obtain ⟨x, hx, hpy⟩ := updateBallPhysics_players_paddle _
          physR (fun p => p.userId == userId) (fun y => rfl) pl hfind
        rw [hpy]
        exact clamped_find_bounds userId paddleY g.players x hx
      · dsimp only at hg'
        rw [mapGet_mapSet_self, Option.some.injEq] at hg'
        subst hg'
        obtain ⟨x, hx, hpy⟩ := updateBallPhysics_players_paddle _
          physR (fun p => p.userId == userId) (fun y => rfl) pl hfind
        rw [hpy]
        exact clamped_find_bounds userId paddleY g.players x hx

/-- C6 (witness): the out-of-range paddle input 5.7 leaves the mover's
stored paddle inside the clamped interval. -/
theorem claim_C6_witness :
    0.1 ≤ aiMovedMover.paddleY ∧ aiMovedMover.paddleY ≤ 0.9 := by
  refine claim_C6_move_clamped aiServiceFixture "a1" "u1" 5.7 none 1 0.5
    0.5 noDbFailure aiGameFixture aiMovedGame aiMovedMover rfl rfl rfl rfl
    ?_ ?_ <;>
  norm_num [aiMovedMover, aiMovedGame, aiMovedState, handlePlayerMove,
    aiServiceFixture, aiGameFixture, aiDbFixture, seedUsers, noDbFailure,
    mapGet, mapSet, calculateAIMove, createAIOpponent, qsign, min_def,
    max_def, abs, updateFirst, updateBallPhysics, integrateBall,
    wallBounce, leftPaddleCollide, rightPaddleCollide, scoreStep,
    finishCheck, sideScoreReached, persistScores, broadcastGameState,
    sendAll, instBEqOfDecidableEq, List.find?, List.filter, List.any,
    decide_side_ll, decide_side_lr, decide_side_rl, decide_side_rr,
    DB.isUserInGame, DB.recordGameMove, DB.updatePlayerScore]

end Pong
